import Mathlib

/-!
Verification model of the SceneJS quaternion transform node
(src/src/scenejs/transformation/modelView/quaternion.js, with a second
revision of the same node in src/unnamed/part_001).

The quaternion/matrix math helpers (SceneJS_math_*), the model-view
transform module, the instancing module and the SceneJS.Node base class
are not part of the supplied sources; those are modelled from the spec
(each such definition's doc comment says so).  Everything else is a
direct translation of the JavaScript in the repository.

JavaScript conventions used by the node are modelled as follows:
* a possibly-absent numeric field is an `Option ℝ` (`none` = undefined);
* `v || 0` is `orZero` (undefined and 0 are both falsy, so the result
  coincides with `Option.getD 0`);
* the truthiness test `if (params.x)` on a numeric field is `truthy`;
* an exception raised by a child recursion is modelled by the child
  callback returning `false` as its success flag: the node's statements
  after the child call are skipped and the flag propagates.
-/

/-- Quaternion with components (x, y, z, w), as stored in the node's
four-element array `_q`. -/
@[ext]
structure Quat where
  x : ℝ
  y : ℝ
  z : ℝ
  w : ℝ

/-- Modelled from the spec: `SceneJS_math_identityQuaternion` (not under
src/); `identity()` is the rotation-free quaternion (0,0,0,1). -/
def identityQuaternion : Quat := ⟨0, 0, 0, 1⟩

/-- Modelled from the spec: `SceneJS_math_angleAxisQuaternion` (not under
src/); unit quaternion for a rotation of `angle` degrees about the
(possibly non-unit) axis (x,y,z).  The axis is normalized internally; a
zero-length axis or a zero angle yields the identity quaternion rather
than failing or producing NaNs. -/
noncomputable def angleAxisQuaternion (x y z angle : ℝ) : Quat :=
  if (x = 0 ∧ y = 0 ∧ z = 0) ∨ angle = 0 then identityQuaternion
  else
    ⟨Real.sin (angle * Real.pi / 360) * (x / Real.sqrt (x ^ 2 + y ^ 2 + z ^ 2)),
     Real.sin (angle * Real.pi / 360) * (y / Real.sqrt (x ^ 2 + y ^ 2 + z ^ 2)),
     Real.sin (angle * Real.pi / 360) * (z / Real.sqrt (x ^ 2 + y ^ 2 + z ^ 2)),
     Real.cos (angle * Real.pi / 360)⟩

/-- Modelled from the spec: `SceneJS_math_mulQuaternions` (not under
src/); the quaternion product `a * b` (Hamilton product), representing
"apply rotation b first, then a". -/
def mulQuaternions (a b : Quat) : Quat :=
  ⟨a.w * b.x + a.x * b.w + a.y * b.z - a.z * b.y,
   a.w * b.y - a.x * b.z + a.y * b.w + a.z * b.x,
   a.w * b.z + a.x * b.y - a.y * b.x + a.z * b.w,
   a.w * b.w - a.x * b.x - a.y * b.y - a.z * b.z⟩

/-- Modelled from the spec: `SceneJS_math_normalizeQuaternion` (not under
src/); rescales to unit length and fails safe to the identity when the
magnitude is zero. -/
noncomputable def normalizeQuaternion (q : Quat) : Quat :=
  let len := Real.sqrt (q.x ^ 2 + q.y ^ 2 + q.z ^ 2 + q.w ^ 2)
  if len = 0 then identityQuaternion
  else ⟨q.x / len, q.y / len, q.z / len, q.w / len⟩

/-- 4x4 real matrix, the repository's `Mat4`. -/
abbrev Mat4 := Matrix (Fin 4) (Fin 4) ℝ

/-- Modelled from the spec: `SceneJS_math_mulMat4` (not under src/);
the 4x4 matrix product. -/
noncomputable def mulMat4 (a b : Mat4) : Mat4 := a * b

/-- Modelled from the spec: `SceneJS_math_newMat4FromQuaternion` (not
under src/); the homogeneous rotation matrix equivalent to `q`. -/
noncomputable def newMat4FromQuaternion (q : Quat) : Mat4 :=
  !![1 - 2 * (q.y ^ 2 + q.z ^ 2), 2 * (q.x * q.y - q.z * q.w),
       2 * (q.x * q.z + q.y * q.w), 0;
     2 * (q.x * q.y + q.z * q.w), 1 - 2 * (q.x ^ 2 + q.z ^ 2),
       2 * (q.y * q.z - q.x * q.w), 0;
     2 * (q.x * q.z - q.y * q.w), 2 * (q.y * q.z + q.x * q.w),
       1 - 2 * (q.x ^ 2 + q.y ^ 2), 0;
     0, 0, 0, 1]

/-- JavaScript `v || 0` on a possibly-undefined numeric field: undefined
and 0 both give 0, any other number gives itself. -/
def orZero (v : Option ℝ) : ℝ := v.getD 0

/-- JavaScript truthiness of a possibly-undefined numeric field:
true exactly when the field is present with a nonzero value. -/
def truthy (v : Option ℝ) : Prop := orZero v ≠ 0

noncomputable instance (v : Option ℝ) : Decidable (truthy v) :=
  inferInstanceAs (Decidable (orZero v ≠ 0))

@[simp]
theorem orZero_none : orZero none = 0 := rfl

@[simp]
theorem orZero_some (r : ℝ) : orZero (some r) = r := rfl

@[simp]
theorem not_truthy_none : ¬ truthy none := by simp [truthy]

@[simp]
theorem not_truthy_some_zero : ¬ truthy (some 0) := by simp [truthy]

/-- An axis-angle rotation spec `{x, y, z, angle}` as accepted by
`setRotation`, `rotate` and the entries of `rotations`; every field may
be absent. -/
structure RotCfg where
  x : Option ℝ
  y : Option ℝ
  z : Option ℝ
  angle : Option ℝ

/-- A configuration object as consumed by `_init` of the quaternion.js
revision: base-rotation fields `x, y, z, angle`, the `w` field probed by
the `_init` guard, and the optional `rotations` sequence. -/
structure QuatCfg where
  x : Option ℝ
  y : Option ℝ
  z : Option ℝ
  angle : Option ℝ
  w : Option ℝ
  rotations : Option (List RotCfg)

/-- The composed transform record built by `_render`:
`{ localMatrix: ..., matrix: ..., fixed: ... }`. -/
structure XForm where
  localMatrix : Mat4
  matrix : Mat4
  fixed : Bool

/-- The `{matrix, fixed}` pair held by the model-view transform module
(`SceneJS_modelViewTransformModule`); modelled from the spec (the module
is not under src/): `getTransform` returns the current pair and
`setTransform` replaces it. -/
structure SuperXForm where
  matrix : Mat4
  fixed : Bool

/-- State of a `SceneJS.Quaternion` node (quaternion.js revision):
`q` is `this._q`, `fixedParams` is `this._fixedParams`, `memoLevel` is
`this._memoLevel`, `mat` is `this._mat` (`none` = null), `xform` is
`this._xform` (`none` = null).  `inits` is a ghost counter of how many
times `_init` has run, used to state the once-vs-every-visit claims. -/
structure NodeState where
  q : Quat
  fixedParams : Bool
  memoLevel : ℕ
  mat : Option Mat4
  xform : Option XForm
  inits : ℕ

/-- `SceneJS.Quaternion.prototype.setRotation` (quaternion.js, lines
143-148): `this._q = SceneJS_math_angleAxisQuaternion(q.x || 0, q.y || 0,
q.z || 0, q.angle || 0); this._memoLevel = 0;`. -/
noncomputable def setRotation (c : RotCfg) (n : NodeState) : NodeState :=
  { n with
    q := angleAxisQuaternion (orZero c.x) (orZero c.y) (orZero c.z) (orZero c.angle)
    memoLevel := 0 }

/-- `SceneJS.Quaternion.prototype.rotate` (quaternion.js, lines 169-173,
identical in part_001): `this._q = SceneJS_math_mulQuaternions(
SceneJS_math_angleAxisQuaternion(q.x || 0, q.y || 0, q.z || 0,
q.angle || 0), this._q); this._memoLevel = 0;`. -/
noncomputable def rotate (c : RotCfg) (n : NodeState) : NodeState :=
  { n with
    q := mulQuaternions
      (angleAxisQuaternion (orZero c.x) (orZero c.y) (orZero c.z) (orZero c.angle)) n.q
    memoLevel := 0 }

/-- `SceneJS.Quaternion.prototype.normalize` (quaternion.js, lines
188-192): `this._q = SceneJS_math_normalizeQuaternion(this._q);
this._memoLevel = 0;`. -/
noncomputable def normalizeNode (n : NodeState) : NodeState :=
  { n with q := normalizeQuaternion n.q, memoLevel := 0 }

/-- The `for` loop of `_init` over `params.rotations`, applying
`this.rotate(params.rotations[i])` in order. -/
noncomputable def applyRotations : List RotCfg → NodeState → NodeState
  | [], n => n
  | r :: rs, n => applyRotations rs (rotate r n)

/-- `SceneJS.Quaternion.prototype._init` (quaternion.js, lines 194-203).
The guard is transcribed exactly as written in the source:
`if (params.x || params.y || params.x || params.angle || params.w)` —
it tests `params.x` twice and never tests `params.z`.  A present
`rotations` array is always truthy in JavaScript (even when empty).
The ghost counter `inits` is incremented once per call. -/
noncomputable def initQ (params : QuatCfg) (n : NodeState) : NodeState :=
  let n1 :=
    if truthy params.x ∨ truthy params.y ∨ truthy params.x ∨
        truthy params.angle ∨ truthy params.w then
      setRotation ⟨params.x, params.y, params.z, params.angle⟩ n
    else n
  let n2 :=
    match params.rotations with
    | some rs => applyRotations rs n1
    | none => n1
  { n2 with inits := n2.inits + 1 }

/-- Construction of a `SceneJS.Quaternion` (quaternion.js, lines 74-83):
`this._mat = null; this._xform = null; this._q = identity;
if (this._fixedParams) this._init(this._getParams());`.
The base `SceneJS.Node` constructor is not under src/; modelled from the
spec: it records whether the configuration is static (`fixedParams`) and
starts the node dirty (`memoLevel = 0`, spec 4.4 state 0: configuration
not yet applied this epoch). -/
noncomputable def mkQuaternion (fixed : Bool) (params : QuatCfg) : NodeState :=
  let n : NodeState :=
    { q := identityQuaternion, fixedParams := fixed, memoLevel := 0,
      mat := none, xform := none, inits := 0 }
  if fixed then initQ params n else n

/-- The per-visit inputs of `_render` that come from collaborators:
the instancing flag (`SceneJS_instancingModule.instancing()`), the
dynamic configuration (`this._getParams(data)`), and the effect of
`this._renderNodes` on the model-view module state.  The children
callback returns the module state it leaves behind together with a
success flag; `false` models a raised error. -/
structure VisitEnv where
  instancing : Bool
  params : QuatCfg
  children : SuperXForm → SuperXForm × Bool

/-- The `if (this._memoLevel == 0)` block of `_render` (quaternion.js,
lines 206-213): re-run `_init` when parameters are dynamic, otherwise
mark level 1; then recompute `this._mat` from the quaternion. -/
noncomputable def renderLocal (params : QuatCfg) (n : NodeState) : NodeState :=
  if n.memoLevel = 0 then
    let na := if n.fixedParams = false then initQ params n else { n with memoLevel := 1 }
    { na with mat := some (newMat4FromQuaternion na.q) }
  else n

/-- The `if (this._memoLevel < 2)` block of `_render` (quaternion.js,
lines 215-226): recompute `this._xform` from the ambient transform and
promote the memo level when `this._memoLevel == 1 && superXform.fixed &&
!instancing`.  In the source `this._mat` can only be null here on states
unreachable from construction; the `getD 1` default stands for that
junk value. -/
noncomputable def renderCompose (inst : Bool) (n : NodeState) (superXform : SuperXForm) :
    NodeState :=
  if n.memoLevel < 2 then
    let lm := n.mat.getD 1
    let xf : XForm :=
      ⟨lm, mulMat4 superXform.matrix lm, superXform.fixed && n.fixedParams && !inst⟩
    let nb := { n with xform := some xf }
    if n.memoLevel = 1 ∧ superXform.fixed = true ∧ inst = false then
      { nb with memoLevel := 2 }
    else nb
  else n

/-- `SceneJS.Quaternion.prototype._render` (quaternion.js, lines
205-230).  Input `mv` is the module state returned by `getTransform()`;
the result is (new node state, final module state, success flag).
On the success path the last statement `setTransform(superXform)`
restores `mv`; when the child recursion fails, that statement is never
reached and the module keeps whatever state the children left. -/
noncomputable def render (env : VisitEnv) (n : NodeState) (mv : SuperXForm) :
    NodeState × SuperXForm × Bool :=
  let n1 := renderLocal env.params n
  let n2 := renderCompose env.instancing n1 mv
  let pub := n2.xform.getD ⟨1, 1, false⟩
  let res := env.children ⟨pub.matrix, pub.fixed⟩
  if res.2 = true then (n2, mv, true) else (n2, res.1, false)

/-- A sequence of render visits, each with its own collaborator inputs
and ambient transform; the node state threads through. -/
noncomputable def renderVisits : NodeState → List (VisitEnv × SuperXForm) → NodeState
  | n, [] => n
  | n, v :: vs => renderVisits (render v.1 n v.2).1 vs

/-- Rotation spec for the part_001 revision of `setRotation`, which also
probes a `w` field. -/
structure RotCfgW where
  x : Option ℝ
  y : Option ℝ
  z : Option ℝ
  angle : Option ℝ
  w : Option ℝ

/-- The part_001 revision of `setRotation` passes `q.angle` through
without the `|| 0` default, so the angle argument may be undefined.
Modelled from the spec on top of `angleAxisQuaternion`: a zero-length
axis yields the identity quaternion regardless of the angle; a nonzero
axis with an undefined angle contaminates the result with NaNs,
modelled as `none`. -/
noncomputable def angleAxisQuaternionOpt (x y z : ℝ) (angle : Option ℝ) : Option Quat :=
  match angle with
  | some a => some (angleAxisQuaternion x y z a)
  | none => if x = 0 ∧ y = 0 ∧ z = 0 then some identityQuaternion else none

/-- State of the part_001 revision of the node, as far as `setRotation`
touches it: the quaternion (`none` = NaN-contaminated) and the memo
level. -/
structure Node2State where
  q : Option Quat
  memoLevel : ℕ

/-- `SceneJS.Quaternion.prototype.setRotation` in the part_001 revision
(lines 99-108): `if (q.w != undefined && q.w != null) {} else { this._q =
SceneJS_math_angleAxisQuaternion(q.x || 0, q.y || 0, q.z || 0, q.angle); }
this._memoLevel = 0;` — a defined `w` leaves the quaternion unchanged,
and the angle is not defaulted. -/
noncomputable def setRotation2 (c : RotCfgW) (n : Node2State) : Node2State :=
  if c.w.isSome then { n with memoLevel := 0 }
  else
    { q := angleAxisQuaternionOpt (orZero c.x) (orZero c.y) (orZero c.z) c.angle,
      memoLevel := 0 }

/-! ### Basic facts about the node operations -/

theorem rotate_memoLevel (c : RotCfg) (n : NodeState) : (rotate c n).memoLevel = 0 := rfl

theorem rotate_fixedParams (c : RotCfg) (n : NodeState) :
    (rotate c n).fixedParams = n.fixedParams := rfl

theorem rotate_mat (c : RotCfg) (n : NodeState) : (rotate c n).mat = n.mat := rfl

theorem rotate_xform (c : RotCfg) (n : NodeState) : (rotate c n).xform = n.xform := rfl

theorem rotate_inits (c : RotCfg) (n : NodeState) : (rotate c n).inits = n.inits := rfl

theorem setRotation_memoLevel (c : RotCfg) (n : NodeState) :
    (setRotation c n).memoLevel = 0 := rfl

theorem setRotation_fixedParams (c : RotCfg) (n : NodeState) :
    (setRotation c n).fixedParams = n.fixedParams := rfl

theorem setRotation_mat (c : RotCfg) (n : NodeState) : (setRotation c n).mat = n.mat := rfl

theorem setRotation_xform (c : RotCfg) (n : NodeState) :
    (setRotation c n).xform = n.xform := rfl

theorem setRotation_inits (c : RotCfg) (n : NodeState) :
    (setRotation c n).inits = n.inits := rfl

theorem normalizeNode_memoLevel (n : NodeState) : (normalizeNode n).memoLevel = 0 := rfl

theorem applyRotations_fixedParams (rs : List RotCfg) (n : NodeState) :
    (applyRotations rs n).fixedParams = n.fixedParams := by
  induction rs generalizing n with
  | nil => rfl
  | cons r rs ih => simpa [applyRotations] using ih (rotate r n)

theorem applyRotations_mat (rs : List RotCfg) (n : NodeState) :
    (applyRotations rs n).mat = n.mat := by
  induction rs generalizing n with
  | nil => rfl
  | cons r rs ih => simpa [applyRotations] using ih (rotate r n)

theorem applyRotations_xform (rs : List RotCfg) (n : NodeState) :
    (applyRotations rs n).xform = n.xform := by
  induction rs generalizing n with
  | nil => rfl
  | cons r rs ih => simpa [applyRotations] using ih (rotate r n)

theorem applyRotations_inits (rs : List RotCfg) (n : NodeState) :
    (applyRotations rs n).inits = n.inits := by
  induction rs generalizing n with
  | nil => rfl
  | cons r rs ih => simpa [applyRotations] using ih (rotate r n)

theorem applyRotations_memoLevel_cases (rs : List RotCfg) (n : NodeState) :
    (applyRotations rs n).memoLevel = n.memoLevel ∨ (applyRotations rs n).memoLevel = 0 := by
  induction rs generalizing n with
  | nil => exact Or.inl rfl
  | cons r rs ih =>
    rcases ih (rotate r n) with h | h
    · exact Or.inr (by simpa [applyRotations, rotate_memoLevel] using h)
    · exact Or.inr (by simpa [applyRotations] using h)

theorem initQ_fixedParams (p : QuatCfg) (n : NodeState) :
    (initQ p n).fixedParams = n.fixedParams := by
  unfold initQ
  split
  all_goals split
  all_goals simp [applyRotations_fixedParams, setRotation_fixedParams]

theorem initQ_mat (p : QuatCfg) (n : NodeState) : (initQ p n).mat = n.mat := by
  unfold initQ
  split
  all_goals split
  all_goals simp [applyRotations_mat, setRotation_mat]

theorem initQ_xform (p : QuatCfg) (n : NodeState) : (initQ p n).xform = n.xform := by
  unfold initQ
  split
  all_goals split
  all_goals simp [applyRotations_xform, setRotation_xform]

theorem initQ_inits (p : QuatCfg) (n : NodeState) : (initQ p n).inits = n.inits + 1 := by
  unfold initQ
  split
  all_goals split
  all_goals simp [applyRotations_inits, setRotation_inits]

theorem initQ_memoLevel_cases (p : QuatCfg) (n : NodeState) :
    (initQ p n).memoLevel = n.memoLevel ∨ (initQ p n).memoLevel = 0 := by
  unfold initQ
  split
  all_goals split
  case _ _ rs _ =>
    rcases applyRotations_memoLevel_cases rs (setRotation ⟨p.x, p.y, p.z, p.angle⟩ n) with h | h
    · exact Or.inr (by simpa [setRotation_memoLevel] using h)
    · exact Or.inr (by simpa using h)
  case _ _ =>
    exact Or.inr (by simp [setRotation_memoLevel])
  case _ _ rs _ =>
    rcases applyRotations_memoLevel_cases rs n with h | h
    · exact Or.inl (by simpa using h)
    · exact Or.inr (by simpa using h)
  case _ _ =>
    exact Or.inl rfl

theorem initQ_memoLevel_zero (p : QuatCfg) (n : NodeState) (h : n.memoLevel = 0) :
    (initQ p n).memoLevel = 0 := by
  rcases initQ_memoLevel_cases p n with h1 | h1
  · exact h1.trans h
  · exact h1

theorem mkQuaternion_memoLevel (f : Bool) (p : QuatCfg) :
    (mkQuaternion f p).memoLevel = 0 := by
  unfold mkQuaternion
  split
  · exact initQ_memoLevel_zero p _ rfl
  · rfl

theorem mkQuaternion_fixedParams (f : Bool) (p : QuatCfg) :
    (mkQuaternion f p).fixedParams = f := by
  unfold mkQuaternion
  split
  · simp [initQ_fixedParams]
  · rfl

theorem mkQuaternion_inits (f : Bool) (p : QuatCfg) :
    (mkQuaternion f p).inits = if f then 1 else 0 := by
  unfold mkQuaternion
  split
  all_goals simp_all [initQ_inits]

/-! ### Facts about the render steps -/

theorem renderLocal_skip (p : QuatCfg) (n : NodeState) (h : n.memoLevel ≠ 0) :
    renderLocal p n = n := by
  unfold renderLocal
  simp [h]

theorem renderLocal_static (p : QuatCfg) (n : NodeState) (h : n.memoLevel = 0)
    (hf : n.fixedParams = true) :
    renderLocal p n = { n with memoLevel := 1, mat := some (newMat4FromQuaternion n.q) } := by
  unfold renderLocal
  simp [h, hf]

theorem renderLocal_dynamic (p : QuatCfg) (n : NodeState) (h : n.memoLevel = 0)
    (hf : n.fixedParams = false) :
    renderLocal p n =
      { initQ p n with mat := some (newMat4FromQuaternion (initQ p n).q) } := by
  unfold renderLocal
  simp [h, hf]

theorem renderLocal_fixedParams (p : QuatCfg) (n : NodeState) :
    (renderLocal p n).fixedParams = n.fixedParams := by
  unfold renderLocal
  split
  · split
    · simp [initQ_fixedParams]
    · rfl
  · rfl

theorem renderLocal_q_static (p : QuatCfg) (n : NodeState) (hf : n.fixedParams = true) :
    (renderLocal p n).q = n.q := by
  unfold renderLocal
  split
  · split
    · simp_all
    · rfl
  · rfl

theorem renderLocal_inits_static (p : QuatCfg) (n : NodeState) (hf : n.fixedParams = true) :
    (renderLocal p n).inits = n.inits := by
  unfold renderLocal
  split
  · split
    · simp_all
    · rfl
  · rfl

theorem renderLocal_memoLevel_static (p : QuatCfg) (n : NodeState) (h : n.memoLevel = 0)
    (hf : n.fixedParams = true) : (renderLocal p n).memoLevel = 1 := by
  rw [renderLocal_static p n h hf]

theorem renderLocal_memoLevel_dynamic (p : QuatCfg) (n : NodeState) (h : n.memoLevel = 0)
    (hf : n.fixedParams = false) : (renderLocal p n).memoLevel = 0 := by
  rw [renderLocal_dynamic p n h hf]
  simpa using initQ_memoLevel_zero p n h

theorem renderLocal_memoLevel_le (p : QuatCfg) (n : NodeState) (h : n.memoLevel ≤ 1) :
    (renderLocal p n).memoLevel ≤ 1 := by
  rcases Nat.eq_zero_or_pos n.memoLevel with h0 | hpos
  · cases hf : n.fixedParams with
    | true => simp [renderLocal_memoLevel_static p n h0 hf]
    | false => simp [renderLocal_memoLevel_dynamic p n h0 hf]
  · rw [renderLocal_skip p n (Nat.pos_iff_ne_zero.mp hpos)]
    exact h

theorem renderLocal_mat_isSome (p : QuatCfg) (n : NodeState)
    (hmat : 1 ≤ n.memoLevel → n.mat.isSome = true) :
    1 ≤ (renderLocal p n).memoLevel → (renderLocal p n).mat.isSome = true := by
  by_cases h0 : n.memoLevel = 0
  · cases hf : n.fixedParams with
    | true =>
      intro _
      rw [renderLocal_static p n h0 hf]
      simp
    | false =>
      intro _
      rw [renderLocal_dynamic p n h0 hf]
      simp
  · rw [renderLocal_skip p n h0]
    exact hmat

theorem renderCompose_skip (i : Bool) (n : NodeState) (s : SuperXForm)
    (h : ¬ n.memoLevel < 2) : renderCompose i n s = n := by
  unfold renderCompose
  simp [h]

/-- The freshly recomputed composed transform of step 3 of the render
algorithm. -/
noncomputable def freshXForm (i : Bool) (n : NodeState) (s : SuperXForm) : XForm :=
  XForm.mk (n.mat.getD 1) (mulMat4 s.matrix (n.mat.getD 1))
    (s.fixed && n.fixedParams && !i)

theorem renderCompose_promote (i : Bool) (n : NodeState) (s : SuperXForm)
    (h : n.memoLevel < 2) (hc : n.memoLevel = 1 ∧ s.fixed = true ∧ i = false) :
    renderCompose i n s =
      { n with xform := some (freshXForm i n s), memoLevel := 2 } := by
  unfold renderCompose freshXForm
  simp [h, hc]

theorem renderCompose_noPromote (i : Bool) (n : NodeState) (s : SuperXForm)
    (h : n.memoLevel < 2) (hc : ¬ (n.memoLevel = 1 ∧ s.fixed = true ∧ i = false)) :
    renderCompose i n s = { n with xform := some (freshXForm i n s) } := by
  unfold renderCompose freshXForm
  simp [h, hc]

theorem renderCompose_fixedParams (i : Bool) (n : NodeState) (s : SuperXForm) :
    (renderCompose i n s).fixedParams = n.fixedParams := by
  unfold renderCompose
  split
  · split
    all_goals rfl
  · rfl

theorem renderCompose_q (i : Bool) (n : NodeState) (s : SuperXForm) :
    (renderCompose i n s).q = n.q := by
  unfold renderCompose
  split
  · split
    all_goals rfl
  · rfl

theorem renderCompose_mat (i : Bool) (n : NodeState) (s : SuperXForm) :
    (renderCompose i n s).mat = n.mat := by
  unfold renderCompose
  split
  · split
    all_goals rfl
  · rfl

theorem renderCompose_inits (i : Bool) (n : NodeState) (s : SuperXForm) :
    (renderCompose i n s).inits = n.inits := by
  unfold renderCompose
  split
  · split
    all_goals rfl
  · rfl

theorem renderCompose_memoLevel_instancing (n : NodeState) (s : SuperXForm)
    (h : n.memoLevel ≤ 1) : (renderCompose true n s).memoLevel ≤ 1 := by
  unfold renderCompose
  split
  · split
    · simp_all
    · simpa using h
  · simpa using h

theorem render_fst (env : VisitEnv) (n : NodeState) (mv : SuperXForm) :
    (render env n mv).1 = renderCompose env.instancing (renderLocal env.params n) mv := by
  simp only [render]
  split
  all_goals rfl

/-! ### Reachable node states and their cache invariant -/

/-- Node states reachable through the node's public lifecycle:
construction followed by any interleaving of render visits and the
public mutators. -/
inductive Reachable : NodeState → Prop
  | construct (fixed : Bool) (params : QuatCfg) : Reachable (mkQuaternion fixed params)
  | renderStep (env : VisitEnv) (mv : SuperXForm) {n : NodeState} :
      Reachable n → Reachable (render env n mv).1
  | setRotationStep (c : RotCfg) {n : NodeState} :
      Reachable n → Reachable (setRotation c n)
  | rotateStep (c : RotCfg) {n : NodeState} :
      Reachable n → Reachable (rotate c n)
  | normalizeStep {n : NodeState} : Reachable n → Reachable (normalizeNode n)

/-- Cache invariant of the node: past memo level 0 the node is static
and holds a computed local matrix, and at level 2 it holds a computed
composed transform. -/
def GoodState (n : NodeState) : Prop :=
  (1 ≤ n.memoLevel → n.fixedParams = true ∧ n.mat.isSome = true) ∧
  (n.memoLevel = 2 → n.xform.isSome = true)

theorem goodState_renderLocal (p : QuatCfg) (n : NodeState) (hg : GoodState n) :
    GoodState (renderLocal p n) ∧
      ((renderLocal p n).memoLevel = 2 → n.memoLevel = 2) := by
  by_cases h0 : n.memoLevel = 0
  · cases hf : n.fixedParams with
    | true =>
      rw [renderLocal_static p n h0 hf]
      refine ⟨⟨fun _ => ⟨hf, by simp⟩, fun h => by simp at h⟩, fun h => by simp at h⟩
    | false =>
      rw [renderLocal_dynamic p n h0 hf]
      have hz : (initQ p n).memoLevel = 0 := initQ_memoLevel_zero p n h0
      refine ⟨⟨fun h => absurd h (by simp [hz]), fun h => ?_⟩, fun h => ?_⟩
      · simp [hz] at h
      · simp [hz] at h
  · rw [renderLocal_skip p n h0]
    exact ⟨hg, fun h => h⟩

theorem goodState_renderCompose (i : Bool) (n : NodeState) (s : SuperXForm)
    (hg : GoodState n) : GoodState (renderCompose i n s) := by
  by_cases h2 : n.memoLevel < 2
  · by_cases hc : n.memoLevel = 1 ∧ s.fixed = true ∧ i = false
    · rw [renderCompose_promote i n s h2 hc]
      refine ⟨fun _ => ?_, fun _ => by simp⟩
      rcases hg.1 (by omega) with ⟨hfp, hmat⟩
      exact ⟨by simpa using hfp, by simpa using hmat⟩
    · rw [renderCompose_noPromote i n s h2 hc]
      refine ⟨fun h => ?_, fun h => ?_⟩
      · rcases hg.1 (by simpa using h) with ⟨hfp, hmat⟩
        exact ⟨by simpa using hfp, by simpa using hmat⟩
      · simp at h
        omega
  · rw [renderCompose_skip i n s h2]
    exact hg

theorem reachable_goodState {n : NodeState} (h : Reachable n) : GoodState n := by
  induction h with
  | construct fixed params =>
    constructor
    · intro h1
      rw [mkQuaternion_memoLevel] at h1
      omega
    · intro h2
      rw [mkQuaternion_memoLevel] at h2
      omega
  | renderStep env mv _ ih =>
    rw [render_fst]
    exact goodState_renderCompose _ _ _ (goodState_renderLocal _ _ ih).1
  | setRotationStep c _ ih =>
    refine ⟨fun h1 => ?_, fun h2 => ?_⟩
    · rw [setRotation_memoLevel] at h1
      omega
    · rw [setRotation_memoLevel] at h2
      omega
  | rotateStep c _ ih =>
    refine ⟨fun h1 => ?_, fun h2 => ?_⟩
    · rw [rotate_memoLevel] at h1
      omega
    · rw [rotate_memoLevel] at h2
      omega
  | normalizeStep _ ih =>
    refine ⟨fun h1 => ?_, fun h2 => ?_⟩
    · rw [normalizeNode_memoLevel] at h1
      omega
    · rw [normalizeNode_memoLevel] at h2
      omega

/-! ### Quaternion algebra facts used by the claims -/

theorem mulQuaternions_identity_right (q : Quat) :
    mulQuaternions q identityQuaternion = q := by
  cases q with
  | mk x y z w => simp [mulQuaternions, identityQuaternion]

/-- The quaternion that `setRotation`/`rotate` build from a rotation
spec: `angleAxisQuaternion(q.x || 0, q.y || 0, q.z || 0, q.angle || 0)`. -/
noncomputable def rotCfgQuat (c : RotCfg) : Quat :=
  angleAxisQuaternion (orZero c.x) (orZero c.y) (orZero c.z) (orZero c.angle)

theorem aaq_unitY :
    angleAxisQuaternion 0 1 0 90 =
      ⟨0, Real.sqrt 2 / 2, 0, Real.sqrt 2 / 2⟩ := by
  unfold angleAxisQuaternion
  rw [if_neg (by norm_num)]
  have hhalf : (90 : ℝ) * Real.pi / 360 = Real.pi / 4 := by ring
  rw [hhalf]
  norm_num [Real.sin_pi_div_four, Real.cos_pi_div_four, Real.sqrt_one]

theorem aaq_unitX :
    angleAxisQuaternion 1 0 0 90 =
      ⟨Real.sqrt 2 / 2, 0, 0, Real.sqrt 2 / 2⟩ := by
  unfold angleAxisQuaternion
  rw [if_neg (by norm_num)]
  have hhalf : (90 : ℝ) * Real.pi / 360 = Real.pi / 4 := by ring
  rw [hhalf]
  norm_num [Real.sin_pi_div_four, Real.cos_pi_div_four, Real.sqrt_one]

theorem mul_unitX_unitY_ne :
    mulQuaternions (angleAxisQuaternion 1 0 0 90) (angleAxisQuaternion 0 1 0 90) ≠
      mulQuaternions (angleAxisQuaternion 0 1 0 90) (angleAxisQuaternion 1 0 0 90) := by
  rw [aaq_unitX, aaq_unitY]
  have h2 : Real.sqrt 2 * Real.sqrt 2 = 2 := Real.mul_self_sqrt (by norm_num)
  intro h
  have hz := congrArg Quat.z h
  simp only [mulQuaternions] at hz
  nlinarith [hz, h2]

/-! ### Further shared helpers -/

theorem aaq_all_zero : angleAxisQuaternion 0 0 0 0 = identityQuaternion := by
  unfold angleAxisQuaternion
  rw [if_pos (Or.inr rfl)]

theorem renderLocal_mat_fresh (p : QuatCfg) (n : NodeState) (h : n.memoLevel = 0) :
    (renderLocal p n).mat = some (newMat4FromQuaternion (renderLocal p n).q) := by
  cases hf : n.fixedParams with
  | true => rw [renderLocal_static p n h hf]
  | false => rw [renderLocal_dynamic p n h hf]

theorem renderCompose_xform_fresh (i : Bool) (n : NodeState) (s : SuperXForm)
    (h : n.memoLevel < 2) :
    (renderCompose i n s).xform = some (freshXForm i n s) := by
  by_cases hc : n.memoLevel = 1 ∧ s.fixed = true ∧ i = false
  · rw [renderCompose_promote i n s h hc]
  · rw [renderCompose_noPromote i n s h hc]

theorem renderCompose_memoLevel_zero (i : Bool) (n : NodeState) (s : SuperXForm)
    (h : n.memoLevel = 0) : (renderCompose i n s).memoLevel = 0 := by
  rw [renderCompose_noPromote i n s (by omega) (by simp [h])]
  exact h

theorem renderCompose_memoLevel_cases (i : Bool) (n : NodeState) (s : SuperXForm) :
    (renderCompose i n s).memoLevel = n.memoLevel ∨
      (renderCompose i n s).memoLevel = 2 := by
  unfold renderCompose
  split
  · split
    · right
      rfl
    · left
      rfl
  · left
    rfl

theorem render_fixedParams (env : VisitEnv) (n : NodeState) (mv : SuperXForm) :
    (render env n mv).1.fixedParams = n.fixedParams := by
  rw [render_fst, renderCompose_fixedParams, renderLocal_fixedParams]

theorem renderLocal_inits_dynamic (p : QuatCfg) (n : NodeState) (h0 : n.memoLevel = 0)
    (hf : n.fixedParams = false) : (renderLocal p n).inits = n.inits + 1 := by
  rw [renderLocal_dynamic p n h0 hf]
  simpa using initQ_inits p n

theorem render_inits_static (env : VisitEnv) (n : NodeState) (mv : SuperXForm)
    (hf : n.fixedParams = true) : (render env n mv).1.inits = n.inits := by
  rw [render_fst, renderCompose_inits, renderLocal_inits_static _ n hf]

theorem renderLocal_memoLevel_one_fixedParams (p : QuatCfg) (n : NodeState)
    (hg : GoodState n) (h1 : (renderLocal p n).memoLevel = 1) :
    n.fixedParams = true := by
  by_cases h0 : n.memoLevel = 0
  · cases hf : n.fixedParams with
    | true => rfl
    | false =>
      rw [renderLocal_memoLevel_dynamic p n h0 hf] at h1
      simp at h1
  · rw [renderLocal_skip p n h0] at h1
    exact (hg.1 (by omega)).1

theorem render_fresh (env : VisitEnv) (n : NodeState) (mv : SuperXForm)
    (h : n.memoLevel = 0) :
    (render env n mv).1.mat =
      some (newMat4FromQuaternion (renderLocal env.params n).q) ∧
    (render env n mv).1.xform =
      some (freshXForm env.instancing (renderLocal env.params n) mv) := by
  have hle : (renderLocal env.params n).memoLevel ≤ 1 :=
    renderLocal_memoLevel_le env.params n (by omega)
  constructor
  · rw [render_fst, renderCompose_mat]
    exact renderLocal_mat_fresh env.params n h
  · rw [render_fst]
    exact renderCompose_xform_fresh _ _ _ (by omega)

/-- The empty configuration object `{}`. -/
def emptyCfg : QuatCfg := ⟨none, none, none, none, none, none⟩

/-- A freshly constructed node state with the identity quaternion and a
static (but empty) configuration. -/
def idNode : NodeState := ⟨identityQuaternion, true, 0, none, none, 0⟩

/-- A visit environment with instancing inactive and children that
return normally without touching the module state. -/
noncomputable def plainEnv : VisitEnv := ⟨false, emptyCfg, fun s => (s, true)⟩

/-- A visit environment with instancing active and children that return
normally. -/
noncomputable def instEnv : VisitEnv := ⟨true, emptyCfg, fun s => (s, true)⟩

/-- A fixed ambient transform holding the identity matrix. -/
def fixedAmbient : SuperXForm := ⟨1, true⟩

/-! ### Claims -/

/-- C8: `fromAxisAngle` applied to a zero-length axis — in particular
`fromAxisAngle(0, 0, 0, 45)` — returns the identity quaternion, not NaN
components, so degenerate axis-angle input degrades to the identity. -/
theorem angleAxisQuaternion_zero_axis_identity :
    angleAxisQuaternion 0 0 0 45 = identityQuaternion := by
  unfold angleAxisQuaternion
  rw [if_pos (Or.inl ⟨rfl, rfl, rfl⟩)]

/-- C5: `rotate(q)` accumulates rather than replaces: it left-multiplies
the axis-angle quaternion onto the current quaternion and resets
memoLevel to 0; rotate(a) then rotate(b) equals left-multiplying
fromAxisAngle(b) then fromAxisAngle(a) onto the starting quaternion, and
for 90 degrees about Y versus 90 degrees about X the two application
orders yield different quaternions. -/
theorem rotate_accumulates_left_multiplication :
    (∀ (a b : RotCfg) (n : NodeState),
      (rotate b (rotate a n)).q =
        mulQuaternions (rotCfgQuat b) (mulQuaternions (rotCfgQuat a) n.q)) ∧
    (∀ (c : RotCfg) (n : NodeState), (rotate c n).memoLevel = 0) ∧
    (rotate ⟨some 1, none, none, some 90⟩
        (rotate ⟨none, some 1, none, some 90⟩ idNode)).q ≠
      (rotate ⟨none, some 1, none, some 90⟩
        (rotate ⟨some 1, none, none, some 90⟩ idNode)).q := by
  refine ⟨fun a b n => rfl, fun c n => rfl, ?_⟩
  have e1 : (rotate ⟨some 1, none, none, some 90⟩
      (rotate ⟨none, some 1, none, some 90⟩ idNode)).q =
      mulQuaternions (angleAxisQuaternion 1 0 0 90)
        (mulQuaternions (angleAxisQuaternion 0 1 0 90) identityQuaternion) := rfl
  have e2 : (rotate ⟨none, some 1, none, some 90⟩
      (rotate ⟨some 1, none, none, some 90⟩ idNode)).q =
      mulQuaternions (angleAxisQuaternion 0 1 0 90)
        (mulQuaternions (angleAxisQuaternion 1 0 0 90) identityQuaternion) := rfl
  rw [e1, e2, mulQuaternions_identity_right, mulQuaternions_identity_right]
  exact mul_unitX_unitY_ne

/-- C9: in the quaternion.js revision, a configuration whose only
nonzero base-rotation field is z (x, y, angle, w absent or zero and no
rotations array) never triggers setRotation inside _init — the guard
tests params.x twice and never params.z — so the quaternion and the
memo level are left untouched. -/
theorem init_guard_ignores_z_only_rotation (p : QuatCfg) (n : NodeState)
    (hx : ¬ truthy p.x) (hy : ¬ truthy p.y) (ha : ¬ truthy p.angle)
    (hw : ¬ truthy p.w) (hr : p.rotations = none) :
    (initQ p n).q = n.q ∧ (initQ p n).memoLevel = n.memoLevel := by
  have hg : ¬ (truthy p.x ∨ truthy p.y ∨ truthy p.x ∨ truthy p.angle ∨ truthy p.w) := by
    intro h
    rcases h with h | h | h | h | h
    exacts [hx h, hy h, hx h, ha h, hw h]
  unfold initQ
  rw [if_neg hg, hr]
  exact ⟨rfl, rfl⟩

/-- C9 witness: a configuration with z = 5 and everything else absent
leaves a fresh node's quaternion at the identity and its memo level at
0. -/
theorem init_guard_ignores_z_only_rotation_witness :
    (initQ ⟨none, none, some 5, none, none, none⟩ idNode).q = identityQuaternion ∧
    (initQ ⟨none, none, some 5, none, none, none⟩ idNode).memoLevel = 0 :=
  init_guard_ignores_z_only_rotation ⟨none, none, some 5, none, none, none⟩ idNode
    (by simp) (by simp) (by simp) (by simp) rfl

/-- C10: every public mutator of the node — setRotation, rotate and
normalize — sets memoLevel to 0, so the next render visit recomputes
both the cached local matrix (from the then-current quaternion) and the
cached composed transform (from the then-current ambient state); a
stale cached matrix is never served after a mutation. -/
theorem mutators_reset_memo_force_recompute
    (c : RotCfg) (n : NodeState) (env : VisitEnv) (mv : SuperXForm) :
    (setRotation c n).memoLevel = 0 ∧
    (rotate c n).memoLevel = 0 ∧
    (normalizeNode n).memoLevel = 0 ∧
    ((render env (setRotation c n) mv).1.mat =
        some (newMat4FromQuaternion (renderLocal env.params (setRotation c n)).q) ∧
      (render env (setRotation c n) mv).1.xform =
        some (freshXForm env.instancing (renderLocal env.params (setRotation c n)) mv)) ∧
    ((render env (rotate c n) mv).1.mat =
        some (newMat4FromQuaternion (renderLocal env.params (rotate c n)).q) ∧
      (render env (rotate c n) mv).1.xform =
        some (freshXForm env.instancing (renderLocal env.params (rotate c n)) mv)) ∧
    ((render env (normalizeNode n) mv).1.mat =
        some (newMat4FromQuaternion (renderLocal env.params (normalizeNode n)).q) ∧
      (render env (normalizeNode n) mv).1.xform =
        some (freshXForm env.instancing (renderLocal env.params (normalizeNode n)) mv)) :=
  ⟨rfl, rfl, rfl, render_fresh env _ mv rfl, render_fresh env _ mv rfl,
    render_fresh env _ mv rfl⟩

/-- C2: across any sequence of render visits on which instancing() is
true at every visit, a node entering at memoLevel at most 1 (as any
freshly constructed node does) never has its memoLevel exceed 1, no
matter how many visits occur, even with static configuration and fixed
ambient transforms. -/
theorem instanced_visits_memoLevel_le_one
    (vs : List (VisitEnv × SuperXForm)) (n : NodeState)
    (hinst : ∀ v ∈ vs, v.1.instancing = true) (hn : n.memoLevel ≤ 1) :
    (renderVisits n vs).memoLevel ≤ 1 := by
  induction vs generalizing n with
  | nil => exact hn
  | cons v vs ih =>
    have h1 : (render v.1 n v.2).1.memoLevel ≤ 1 := by
      rw [render_fst, hinst v (List.mem_cons_self v vs)]
      exact renderCompose_memoLevel_instancing _ _ (renderLocal_memoLevel_le _ n hn)
    exact ih _ (fun u hu => hinst u (List.mem_cons_of_mem v hu)) h1

/-- C2 witness: a static, fixed-ambient node visited twice with
instancing active stays at memoLevel at most 1. -/
theorem instanced_visits_memoLevel_le_one_witness :
    (renderVisits (mkQuaternion true emptyCfg)
      [(instEnv, fixedAmbient), (instEnv, fixedAmbient)]).memoLevel ≤ 1 :=
  instanced_visits_memoLevel_le_one _ (mkQuaternion true emptyCfg)
    (by
      intro v hv
      rcases List.mem_cons.mp hv with h | hv2
      · subst h
        rfl
      · rcases List.mem_cons.mp hv2 with h | h
        · subst h
          rfl
        · exact absurd h (List.not_mem_nil v))
    (by rw [mkQuaternion_memoLevel]; omega)

/-- C7: a static node (fixedParams true) runs _init exactly once, at
construction (the ghost counter stays at 1 across arbitrarily many
visits), and its first render visit takes it directly to memoLevel at
least 1 without re-evaluating the configuration; a dynamic node
(fixedParams false) enters every visit at memoLevel 0 and re-runs _init
exactly once per visit (counter = number of visits). -/
theorem init_once_static_every_visit_dynamic (params : QuatCfg)
    (vs : List (VisitEnv × SuperXForm)) (env : VisitEnv) (mv : SuperXForm) :
    ((mkQuaternion true params).inits = 1 ∧
     (renderVisits (mkQuaternion true params) vs).inits = 1 ∧
     1 ≤ (render env (mkQuaternion true params) mv).1.memoLevel ∧
     (render env (mkQuaternion true params) mv).1.inits = 1) ∧
    ((mkQuaternion false params).inits = 0 ∧
     (renderVisits (mkQuaternion false params) vs).memoLevel = 0 ∧
     (renderVisits (mkQuaternion false params) vs).inits = vs.length) := by
  have hstatic : ∀ (ws : List (VisitEnv × SuperXForm)) (m : NodeState),
      m.fixedParams = true → (renderVisits m ws).inits = m.inits := by
    intro ws
    induction ws with
    | nil => intro m _; rfl
    | cons w ws ih =>
      intro m hm
      have hfp : (render w.1 m w.2).1.fixedParams = true := by
        rw [render_fixedParams]; exact hm
      have := ih (render w.1 m w.2).1 hfp
      rw [renderVisits, this, render_inits_static _ _ _ hm]
  have hdyn : ∀ (ws : List (VisitEnv × SuperXForm)) (m : NodeState),
      m.fixedParams = false → m.memoLevel = 0 →
      (renderVisits m ws).memoLevel = 0 ∧ (renderVisits m ws).inits = m.inits + ws.length := by
    intro ws
    induction ws with
    | nil => intro m _ h0; exact ⟨h0, rfl⟩
    | cons w ws ih =>
      intro m hm h0
      have hfp : (render w.1 m w.2).1.fixedParams = false := by
        rw [render_fixedParams]; exact hm
      have hml : (render w.1 m w.2).1.memoLevel = 0 := by
        rw [render_fst]
        exact renderCompose_memoLevel_zero _ _ _ (renderLocal_memoLevel_dynamic _ m h0 hm)
      have hinits : (render w.1 m w.2).1.inits = m.inits + 1 := by
        rw [render_fst, renderCompose_inits, renderLocal_inits_dynamic _ m h0 hm]
      rcases ih (render w.1 m w.2).1 hfp hml with ⟨ha, hb⟩
      refine ⟨ha, ?_⟩
      rw [renderVisits] at *
      rw [hb, hinits, List.length_cons]
      omega
  have hfS := mkQuaternion_fixedParams true params
  have hfD := mkQuaternion_fixedParams false params
  have hiS : (mkQuaternion true params).inits = 1 := by
    rw [mkQuaternion_inits]; rfl
  have hiD : (mkQuaternion false params).inits = 0 := by
    rw [mkQuaternion_inits]; rfl
  refine ⟨⟨hiS, ?_, ?_, ?_⟩, hiD, ?_, ?_⟩
  · rw [hstatic vs _ hfS, hiS]
  · rw [render_fst]
    have h1 := renderLocal_memoLevel_static env.params (mkQuaternion true params)
      (mkQuaternion_memoLevel true params) hfS
    rcases renderCompose_memoLevel_cases env.instancing
        (renderLocal env.params (mkQuaternion true params)) mv with h | h
    · omega
    · omega
  · rw [render_inits_static _ _ _ hfS, hiS]
  · exact (hdyn vs _ hfD (mkQuaternion_memoLevel false params)).1
  · have := (hdyn vs _ hfD (mkQuaternion_memoLevel false params)).2
    rw [this, hiD]
    omega

/-- C3: a static node (fixedParams true) starting dirty, visited twice
with the same fixed ambient transform and instancing inactive, reaches
memoLevel 2 (already on the first visit, still 2 after the second), and
on the second visit the published composed transform is the exact same
value — not merely numerically close — as a from-scratch recomputation
superMatrix * toMatrix(quaternion) with the same inputs. -/
theorem static_two_visits_memo2_cached_exact
    (e1 e2 : VisitEnv) (n : NodeState) (mv : SuperXForm)
    (hf : n.fixedParams = true) (h0 : n.memoLevel = 0)
    (hmv : mv.fixed = true) (hi1 : e1.instancing = false) :
    ((render e1 n mv).1.memoLevel = 2 ∧
     (render e2 (render e1 n mv).1 mv).1.memoLevel = 2) ∧
    (render e2 (render e1 n mv).1 mv).1.xform =
      some (XForm.mk (newMat4FromQuaternion n.q)
        (mulMat4 mv.matrix (newMat4FromQuaternion n.q)) true) := by
  have hL : renderLocal e1.params n =
      { n with memoLevel := 1, mat := some (newMat4FromQuaternion n.q) } :=
    renderLocal_static e1.params n h0 hf
  have h1 : (render e1 n mv).1 =
      { n with
        memoLevel := 2
        mat := some (newMat4FromQuaternion n.q)
        xform := some (XForm.mk (newMat4FromQuaternion n.q)
          (mulMat4 mv.matrix (newMat4FromQuaternion n.q)) true) } := by
    rw [render_fst, hL,
      renderCompose_promote _ _ _ (by simp) ⟨rfl, hmv, hi1⟩]
    simp [freshXForm, hf, hmv, hi1]
  have h2 : (render e2 (render e1 n mv).1 mv).1 = (render e1 n mv).1 := by
    rw [render_fst, renderLocal_skip _ _ (by rw [h1]; simp),
      renderCompose_skip _ _ _ (by rw [h1]; simp)]
  refine ⟨⟨?_, ?_⟩, ?_⟩
  · rw [h1]
  · rw [h2, h1]
  · rw [h2, h1]

/-- C3 witness: a freshly constructed empty static node under the fixed
identity ambient, visited twice without instancing. -/
theorem static_two_visits_memo2_cached_exact_witness :
    ((render plainEnv (mkQuaternion true emptyCfg) fixedAmbient).1.memoLevel = 2 ∧
     (render plainEnv (render plainEnv (mkQuaternion true emptyCfg) fixedAmbient).1
        fixedAmbient).1.memoLevel = 2) ∧
    (render plainEnv (render plainEnv (mkQuaternion true emptyCfg) fixedAmbient).1
        fixedAmbient).1.xform =
      some (XForm.mk (newMat4FromQuaternion (mkQuaternion true emptyCfg).q)
        (mulMat4 fixedAmbient.matrix
          (newMat4FromQuaternion (mkQuaternion true emptyCfg).q)) true) :=
  static_two_visits_memo2_cached_exact plainEnv plainEnv (mkQuaternion true emptyCfg)
    fixedAmbient (mkQuaternion_fixedParams true emptyCfg)
    (mkQuaternion_memoLevel true emptyCfg) rfl rfl

/-- C4: on any render visit of a reachable node entered with
memoLevel < 2, the node recomputes its composed transform as the record
with localMatrix its local matrix, matrix = superMatrix * localMatrix
and fixed = superFixed AND fixedParams AND NOT instancing, and the
resulting memoLevel is 2 exactly when the level after the local step
was 1 and the newly computed fixed flag is true. -/
theorem render_recompute_and_promotion
    (env : VisitEnv) (n : NodeState) (mv : SuperXForm)
    (hreach : Reachable n) (h2 : n.memoLevel < 2) :
    (∃ lm, (render env n mv).1.mat = some lm ∧
      (render env n mv).1.xform =
        some (XForm.mk lm (mulMat4 mv.matrix lm)
          (mv.fixed && n.fixedParams && !env.instancing))) ∧
    ((render env n mv).1.memoLevel = 2 ↔
      ((renderLocal env.params n).memoLevel = 1 ∧
        (mv.fixed && n.fixedParams && !env.instancing) = true)) := by
  have hg : GoodState n := reachable_goodState hreach
  have hle : (renderLocal env.params n).memoLevel < 2 := by
    have := renderLocal_memoLevel_le env.params n (by omega)
    omega
  have hfp : (renderLocal env.params n).fixedParams = n.fixedParams :=
    renderLocal_fixedParams env.params n
  have hmat : ∃ lm, (renderLocal env.params n).mat = some lm := by
    by_cases h0 : n.memoLevel = 0
    · exact ⟨_, renderLocal_mat_fresh env.params n h0⟩
    · rw [renderLocal_skip env.params n h0]
      rcases Option.isSome_iff_exists.mp (hg.1 (by omega)).2 with ⟨m, hm⟩
      exact ⟨m, hm⟩
  rcases hmat with ⟨lm, hlm⟩
  have hxf : (render env n mv).1.xform =
      some (freshXForm env.instancing (renderLocal env.params n) mv) := by
    rw [render_fst]
    exact renderCompose_xform_fresh _ _ _ hle
  constructor
  · refine ⟨lm, ?_, ?_⟩
    · rw [render_fst, renderCompose_mat]
      exact hlm
    · rw [hxf]
      unfold freshXForm mulMat4
      rw [hlm, hfp]
      simp
  · rw [render_fst]
    by_cases hc : (renderLocal env.params n).memoLevel = 1 ∧ mv.fixed = true ∧
        env.instancing = false
    · rw [renderCompose_promote _ _ _ hle hc]
      have hfx : n.fixedParams = true :=
        renderLocal_memoLevel_one_fixedParams env.params n hg hc.1
      simp [hc.1, hc.2.1, hc.2.2, hfx]
    · have hml := renderCompose_memoLevel_cases env.instancing
        (renderLocal env.params n) mv
      rw [renderCompose_noPromote _ _ _ hle hc]
      constructor
      · intro habs
        exfalso
        have : (renderLocal env.params n).memoLevel = 2 := habs
        omega
      · rintro ⟨hm1, hflag⟩
        exfalso
        apply hc
        refine ⟨hm1, ?_, ?_⟩
        · rcases Bool.and_eq_true_iff.mp hflag with ⟨hab, hni⟩
          exact (Bool.and_eq_true_iff.mp hab).1
        · rcases Bool.and_eq_true_iff.mp hflag with ⟨hab, hni⟩
          simpa using hni

/-- C4 witness: a freshly constructed empty static node rendered under
the fixed identity ambient without instancing. -/
theorem render_recompute_and_promotion_witness :
    (∃ lm, (render plainEnv (mkQuaternion true emptyCfg) fixedAmbient).1.mat = some lm ∧
      (render plainEnv (mkQuaternion true emptyCfg) fixedAmbient).1.xform =
        some (XForm.mk lm (mulMat4 fixedAmbient.matrix lm)
          (fixedAmbient.fixed && (mkQuaternion true emptyCfg).fixedParams &&
            !plainEnv.instancing))) ∧
    ((render plainEnv (mkQuaternion true emptyCfg) fixedAmbient).1.memoLevel = 2 ↔
      ((renderLocal plainEnv.params (mkQuaternion true emptyCfg)).memoLevel = 1 ∧
        (fixedAmbient.fixed && (mkQuaternion true emptyCfg).fixedParams &&
          !plainEnv.instancing) = true)) :=
  render_recompute_and_promotion plainEnv (mkQuaternion true emptyCfg) fixedAmbient
    (Reachable.construct true emptyCfg)
    (by rw [mkQuaternion_memoLevel]; omega)

/-- A visit environment whose child recursion raises an error
(and leaves the module state as it found it); instancing is active so
the published fixed flag observably differs from the ambient one. -/
noncomputable def failingEnv : VisitEnv := ⟨true, emptyCfg, fun s => (s, false)⟩

/-- C1 counterexample: when the child recursion raises, `_render` never
reaches its final `setTransform(superXform)` statement, so after the
render step the module does not hold the `{matrix, fixed}` pair that was
active before the step: here the prior pair had fixed = true but the
module is left holding the published transform with fixed = false. -/
theorem render_child_error_no_restore :
    (render failingEnv (mkQuaternion true emptyCfg) fixedAmbient).2.1 ≠ fixedAmbient := by
  have h0 : (mkQuaternion true emptyCfg).memoLevel = 0 :=
    mkQuaternion_memoLevel true emptyCfg
  have hlt : (renderLocal failingEnv.params (mkQuaternion true emptyCfg)).memoLevel < 2 := by
    have h1 := renderLocal_memoLevel_le failingEnv.params (mkQuaternion true emptyCfg)
      (by omega)
    omega
  have hxf := renderCompose_xform_fresh failingEnv.instancing
    (renderLocal failingEnv.params (mkQuaternion true emptyCfg)) fixedAmbient hlt
  have hr : (render failingEnv (mkQuaternion true emptyCfg) fixedAmbient).2.1.fixed
      = false := by
    simp only [render, hxf, Option.getD_some]
    simp [failingEnv, freshXForm]
  intro h
  rw [h] at hr
  exact absurd hr (by simp [fixedAmbient])

/-- C1 (amended): whenever the child recursion returns normally, the
render step's final statement restores the module to exactly the
`{matrix, fixed}` pair read before the step, for every node state,
ambient transform and visit environment. -/
theorem render_restores_on_normal_return (env : VisitEnv) (n : NodeState)
    (mv : SuperXForm) (h : ∀ s, (env.children s).2 = true) :
    (render env n mv).2.1 = mv ∧ (render env n mv).2.2 = true := by
  constructor
  all_goals simp [render, h]

/-- C1 witness: a concrete successful visit restores the saved ambient
pair. -/
theorem render_restores_on_normal_return_witness :
    (render plainEnv idNode fixedAmbient).2.1 = fixedAmbient ∧
    (render plainEnv idNode fixedAmbient).2.2 = true :=
  render_restores_on_normal_return plainEnv idNode fixedAmbient (fun _ => rfl)

/-- C6 counterexample: in the part_001 revision, a call whose spec has a
defined `w` (here `{w: 1}` on a node whose quaternion is (1,0,0,0))
does not replace the quaternion with
fromAxisAngle(q.x||0, q.y||0, q.z||0, q.angle||0) — the claim would
make it the identity quaternion, but the quaternion is left unchanged. -/
theorem setRotation2_w_guard_counterexample :
    (setRotation2 ⟨none, none, none, none, some 1⟩ ⟨some ⟨1, 0, 0, 0⟩, 5⟩).q ≠
      some (angleAxisQuaternion (orZero none) (orZero none) (orZero none)
        (orZero none)) := by
  have hq : (setRotation2 ⟨none, none, none, none, some 1⟩
      ⟨some ⟨1, 0, 0, 0⟩, 5⟩).q = some ⟨1, 0, 0, 0⟩ := by
    simp [setRotation2]
  rw [hq]
  have hid : angleAxisQuaternion (orZero none) (orZero none) (orZero none) (orZero none)
      = identityQuaternion := aaq_all_zero
  rw [hid]
  intro h
  have hx := congrArg Quat.x (Option.some_injective Quat h)
  simp [identityQuaternion] at hx

/-- C6 (amended): in the quaternion.js revision, setRotation(q) replaces
the quaternion with fromAxisAngle(q.x||0, q.y||0, q.z||0, q.angle||0)
and resets memoLevel to 0, and a call with no meaningful fields yields
the identity quaternion; in the part_001 revision memoLevel is likewise
reset and a no-argument call still yields the identity (via the
zero-axis rule), but when q.w is defined the quaternion is left
unchanged, and when q.w is absent the angle is passed through without
being defaulted. -/
theorem setRotation_replaces_amended :
    (∀ (c : RotCfg) (n : NodeState),
      (setRotation c n).q =
        angleAxisQuaternion (orZero c.x) (orZero c.y) (orZero c.z) (orZero c.angle) ∧
      (setRotation c n).memoLevel = 0) ∧
    (∀ n : NodeState, (setRotation ⟨none, none, none, none⟩ n).q = identityQuaternion) ∧
    (∀ (c : RotCfgW) (n : Node2State), c.w.isSome = true →
      (setRotation2 c n).q = n.q ∧ (setRotation2 c n).memoLevel = 0) ∧
    (∀ (c : RotCfgW) (n : Node2State), c.w = none →
      (setRotation2 c n).q =
        angleAxisQuaternionOpt (orZero c.x) (orZero c.y) (orZero c.z) c.angle ∧
      (setRotation2 c n).memoLevel = 0) ∧
    (∀ n : Node2State,
      (setRotation2 ⟨none, none, none, none, none⟩ n).q = some identityQuaternion) := by
  refine ⟨fun c n => ⟨rfl, rfl⟩, fun n => aaq_all_zero, ?_, ?_, ?_⟩
  · intro c n hw
    unfold setRotation2
    rw [if_pos hw]
    exact ⟨rfl, rfl⟩
  · intro c n hw
    unfold setRotation2
    rw [if_neg (by simp [hw])]
    exact ⟨rfl, rfl⟩
  · intro n
    unfold setRotation2
    rw [if_neg (by simp)]
    show angleAxisQuaternionOpt (orZero none) (orZero none) (orZero none) none = _
    unfold angleAxisQuaternionOpt
    simp

/-- C6 witness: a part_001 call with `w` defined keeps the prior
quaternion and resets the memo level. -/
theorem setRotation_replaces_amended_witness :
    (setRotation2 ⟨none, none, none, none, some 1⟩ ⟨some identityQuaternion, 3⟩).q =
      some identityQuaternion ∧
    (setRotation2 ⟨none, none, none, none, some 1⟩
      ⟨some identityQuaternion, 3⟩).memoLevel = 0 :=
  setRotation_replaces_amended.2.2.1 ⟨none, none, none, none, some 1⟩
    ⟨some identityQuaternion, 3⟩ rfl
